import Mathlib

/-!
# Verification of the LINE reservation bot webhook service

A shallow embedding of `src/main.py` of the `hr-line-reservation-bot`
repository.  Pure helper functions of the script are translated directly;
the effectful webhook handlers are modelled as functions from an explicit
environment (configuration flags, the outcome of each external call, the
current clock reading) to the list of externally visible actions they
perform, in the order the script performs them.  Python values coming back
from JSON endpoints are modelled by the inductive type `JsonVal`; machine
time is modelled by `Int` milliseconds.
-/

/-- A JSON value as produced by Python's `json` module (numbers are
restricted to integers; the script never inspects fractional values). -/
inductive JsonVal where
  | null
  | bool (b : Bool)
  | num (n : Int)
  | str (s : String)
  | arr (xs : List JsonVal)
  | obj (kvs : List (String × JsonVal))

/-- `dict.get(k)` on a parsed JSON object: last occurrence of a duplicated
key wins, as in Python's `json.loads`. -/
def jget (kvs : List (String × JsonVal)) (k : String) : Option JsonVal :=
  kvs.foldl (fun acc p => if p.1 = k then some p.2 else acc) none

/-- Python truthiness of a JSON value (`bool(v)`). -/
def jTruthy : JsonVal → Bool
  | .null => false
  | .bool b => b
  | .num n => n != 0
  | .str s => s != ""
  | .arr xs => !xs.isEmpty
  | .obj kvs => !kvs.isEmpty

/-- `d.get(k) is True` for a parsed JSON object `d`. -/
def jIsTrue (v : Option JsonVal) : Bool :=
  match v with
  | some (.bool true) => true
  | _ => false

/-- `d.get(k) is False` for a parsed JSON object `d`. -/
def jIsFalse (v : Option JsonVal) : Bool :=
  match v with
  | some (.bool false) => true
  | _ => false

/-- `bool(d.get(k))`: truthiness of the value stored under `k`, `False`
when the key is absent (`bool(None)`). -/
def pyBoolGet (kvs : List (String × JsonVal)) (k : String) : Bool :=
  match jget kvs k with
  | some v => jTruthy v
  | none => false

/-- Python `str(v)` for a JSON value.  The `repr`-style rendering of lists
and dicts is abstracted by placeholders; the script only ever reaches it
through a truthy non-scalar reservation id, which no claim exercises. -/
def pyStr : JsonVal → String
  | .null => "None"
  | .bool true => "True"
  | .bool false => "False"
  | .num n => toString n
  | .str s => s
  | .arr _ => "<list-repr>"
  | .obj _ => "<dict-repr>"

/-- The ASCII whitespace characters stripped by Python's `str.strip()`. -/
def pyIsSpace (c : Char) : Bool :=
  c = ' ' || c = '\t' || c = '\n' || c = '\r' || c = '\x0b' || c = '\x0c'

/-- Python `s.strip()` (restricted to ASCII whitespace). -/
def pyStrip (s : String) : String :=
  ⟨((s.toList.dropWhile pyIsSpace).reverse.dropWhile pyIsSpace).reverse⟩

/-- `p` is a leading segment of `l` (character-level `str.startswith`). -/
def leadsWith : List Char → List Char → Bool
  | [], _ => true
  | _ :: _, [] => false
  | a :: as, b :: bs => a = b && leadsWith as bs

/-- `p` occurs as a contiguous segment of `l` (Python `p in s`). -/
def subList (p : List Char) : List Char → Bool
  | [] => leadsWith p []
  | c :: rest => leadsWith p (c :: rest) || subList p rest

/-- Python `pat in s` on strings. -/
def hasSub (s pat : String) : Bool :=
  subList pat.toList s.toList

/-- Python `s.startswith(pre)`. -/
def pyStartsWith (s pre : String) : Bool :=
  leadsWith pre.toList s.toList

/-- Python `s.split(sep)` for a one-character separator, character level:
splits at every occurrence, keeping empty pieces. -/
def splitChar (c : Char) : List Char → List (List Char)
  | [] => [[]]
  | x :: xs =>
    let r := splitChar c xs
    if x = c then [] :: r
    else
      match r with
      | [] => [[x]]
      | h :: t => (x :: h) :: t

/-- Python `s.split(sep, 1)` restricted to its tail: splits at the first
occurrence of `c`, `none` when `c` does not occur. -/
def splitOnce (c : Char) : List Char → Option (List Char × List Char)
  | [] => none
  | x :: xs =>
    if x = c then some ([], xs)
    else (splitOnce c xs).map fun p => (x :: p.1, p.2)

/-- `s.split("|", 1)[1]`: everything after the first `|`.  The script only
evaluates this under a `startswith("CONFIRM|")` guard, where the `|` is
guaranteed to occur; we return the whole string if it does not. -/
def afterBar (s : String) : String :=
  match splitOnce '|' s.toList with
  | some p => ⟨p.2⟩
  | none => s

/-- Value of a hexadecimal digit character. -/
def hexVal (c : Char) : Option Nat :=
  if '0' ≤ c ∧ c ≤ '9' then some (c.toNat - '0'.toNat)
  else if 'a' ≤ c ∧ c ≤ 'f' then some (c.toNat - 'a'.toNat + 10)
  else if 'A' ≤ c ∧ c ≤ 'F' then some (c.toNat - 'A'.toNat + 10)
  else none

/-- Percent-decoding as in `urllib.parse.unquote`: a `%` followed by two
hex digits decodes to that byte, anything else is kept literally
(multi-byte UTF-8 sequences are abstracted to one character per byte). -/
def percentDecode : List Char → List Char
  | [] => []
  | '%' :: a :: b :: rest =>
    match hexVal a, hexVal b with
    | some ha, some hb => Char.ofNat (16 * ha + hb) :: percentDecode rest
    | _, _ => '%' :: percentDecode (a :: b :: rest)
  | c :: rest => c :: percentDecode rest

/-- `urllib.parse.unquote_plus`: `+` becomes a space, then percent
sequences are decoded. -/
def unquote_plus (s : String) : String :=
  ⟨percentDecode (s.toList.map fun c => if c = '+' then ' ' else c)⟩

/-- `urllib.parse.parse_qsl(s, keep_blank_values=True)`: split on `&`,
skip empty pieces, split each piece at the first `=` (a piece without `=`
keeps a blank value), and unquote names and values. -/
def parse_qsl (s : String) : List (String × String) :=
  (splitChar '&' s.toList).filterMap fun piece =>
    if piece.isEmpty then none
    else
      match splitOnce '=' piece with
      | some p => some (unquote_plus ⟨p.1⟩, unquote_plus ⟨p.2⟩)
      | none => some (unquote_plus ⟨piece⟩, "")

/-- `parse_qs(s, keep_blank_values=True).get(k)`: the values stored under
key `k`, in order (the empty list plays the role of Python's `None`). -/
def qs_values (s k : String) : List String :=
  (parse_qsl s).filterMap fun p => if p.1 = k then some p.2 else none

/-- JSON whitespace accepted between tokens by Python's `json.loads`. -/
def jsonWs (c : Char) : Bool :=
  c = ' ' || c = '\t' || c = '\n' || c = '\r'

/-- Skip JSON whitespace. -/
def skipWs (cs : List Char) : List Char :=
  cs.dropWhile jsonWs

/-- Parse the body of a JSON string literal (after the opening quote),
returning the decoded characters and the input past the closing quote.
Escapes follow Python's strict `json.loads` (`\uXXXX` is decoded to a
single character per escape; surrogate pairing is abstracted). -/
def jparseStr : List Char → Option (List Char × List Char)
  | [] => none
  | '"' :: rest => some ([], rest)
  | '\\' :: e :: rest =>
    match e with
    | '"' => (jparseStr rest).map fun p => ('"' :: p.1, p.2)
    | '\\' => (jparseStr rest).map fun p => ('\\' :: p.1, p.2)
    | '/' => (jparseStr rest).map fun p => ('/' :: p.1, p.2)
    | 'b' => (jparseStr rest).map fun p => ('\x08' :: p.1, p.2)
    | 'f' => (jparseStr rest).map fun p => ('\x0c' :: p.1, p.2)
    | 'n' => (jparseStr rest).map fun p => ('\n' :: p.1, p.2)
    | 'r' => (jparseStr rest).map fun p => ('\r' :: p.1, p.2)
    | 't' => (jparseStr rest).map fun p => ('\t' :: p.1, p.2)
    | 'u' =>
      match rest with
      | h1 :: h2 :: h3 :: h4 :: rest2 =>
        match hexVal h1, hexVal h2, hexVal h3, hexVal h4 with
        | some a, some b, some c, some d =>
          (jparseStr rest2).map fun p =>
            (Char.ofNat (((a * 16 + b) * 16 + c) * 16 + d) :: p.1, p.2)
        | _, _, _, _ => none
      | _ => none
    | _ => none
  | c :: rest =>
    if c.toNat < 0x20 then none
    else (jparseStr rest).map fun p => (c :: p.1, p.2)

/-- Accumulate a run of decimal digits into a natural number. -/
def digitsToNat (ds : List Char) : Nat :=
  ds.foldl (fun acc c => acc * 10 + (c.toNat - '0'.toNat)) 0

/-- Parse a JSON number restricted to (possibly negative) integers;
fractional or exponent forms are rejected (a modelling restriction: the
script never consumes such values). -/
def jparseNum (cs : List Char) : Option (Int × List Char) :=
  let (neg, cs') := match cs with
    | '-' :: rest => (true, rest)
    | _ => (false, cs)
  let ds := cs'.takeWhile Char.isDigit
  let rest := cs'.dropWhile Char.isDigit
  if ds.isEmpty then none
  else
    match rest with
    | '.' :: _ => none
    | 'e' :: _ => none
    | 'E' :: _ => none
    | _ =>
      let n : Int := Int.ofNat (digitsToNat ds)
      some (if neg then -n else n, rest)

mutual

/-- Fuel-bounded recursive-descent parser for a JSON value, mirroring
Python's `json.loads` grammar (with the integer-number restriction). -/
def jparseVal (fuel : Nat) (cs : List Char) : Option (JsonVal × List Char) :=
  match fuel with
  | 0 => none
  | fuel + 1 =>
    match skipWs cs with
    | 'n' :: 'u' :: 'l' :: 'l' :: rest => some (.null, rest)
    | 't' :: 'r' :: 'u' :: 'e' :: rest => some (.bool true, rest)
    | 'f' :: 'a' :: 'l' :: 's' :: 'e' :: rest => some (.bool false, rest)
    | '"' :: rest => (jparseStr rest).map fun p => (.str ⟨p.1⟩, p.2)
    | '[' :: rest =>
      (match skipWs rest with
       | ']' :: rest2 => some (.arr [], rest2)
       | rest2 =>
         (jparseArrItems fuel rest2).map fun p => (.arr p.1, p.2))
    | '{' :: rest =>
      (match skipWs rest with
       | '}' :: rest2 => some (.obj [], rest2)
       | rest2 =>
         (jparseObjItems fuel rest2).map fun p => (.obj p.1, p.2))
    | cs' => jparseNum cs' |>.map fun p => (.num p.1, p.2)

/-- Parse one-or-more comma-separated array items up to (and past) `]`. -/
def jparseArrItems (fuel : Nat) (cs : List Char) :
    Option (List JsonVal × List Char) :=
  match fuel with
  | 0 => none
  | fuel + 1 =>
    match jparseVal fuel cs with
    | none => none
    | some (v, rest) =>
      match skipWs rest with
      | ',' :: rest2 =>
        (jparseArrItems fuel rest2).map fun p => (v :: p.1, p.2)
      | ']' :: rest2 => some ([v], rest2)
      | _ => none

/-- Parse one-or-more comma-separated object members up to (and past)
`}`. -/
def jparseObjItems (fuel : Nat) (cs : List Char) :
    Option (List (String × JsonVal) × List Char) :=
  match fuel with
  | 0 => none
  | fuel + 1 =>
    match skipWs cs with
    | '"' :: rest =>
      match jparseStr rest with
      | none => none
      | some (k, rest2) =>
        match skipWs rest2 with
        | ':' :: rest3 =>
          (match jparseVal fuel rest3 with
           | none => none
           | some (v, rest4) =>
             match skipWs rest4 with
             | ',' :: rest5 =>
               (jparseObjItems fuel rest5).map fun p =>
                 ((⟨k⟩, v) :: p.1, p.2)
             | '}' :: rest5 => some ([(⟨k⟩, v)], rest5)
             | _ => none)
        | _ => none
    | _ => none

end

/-- Python `json.loads`: parse a complete JSON document, rejecting
trailing non-whitespace; `none` models a raised `JSONDecodeError`. -/
def json_loads (s : String) : Option JsonVal :=
  match jparseVal (s.length + 1) s.toList with
  | some (v, rest) => if (skipWs rest).isEmpty then some v else none
  | none => none

/-! ## Routing resolver and staleness gate -/

/-- Outcome of the routing `requests.get` call: either some exception was
raised along the way (connection error, non-2xx status, `resp.json()`
failure), or a JSON value was obtained. -/
inductive FetchResult where
  | raise
  | value (v : JsonVal)

/-- The fail-open routing default `("auto_ai", "", None)`. -/
def routing_default : String × JsonVal × Option Int :=
  ("auto_ai", .str "", none)

/-- The three recognized bot modes. -/
def recognized_modes : List String :=
  ["auto_ai", "owner_manual", "staff_manual"]

/-- `get_line_user_routing` of `src/main.py`, with the endpoint
configuration flag and the network outcome passed explicitly.  Returns
`(bot_mode, owner_agent_id, last_mode_at_ms)`. -/
def get_line_user_routing (urlSet : Bool) (line_user_id : String)
    (fetch : FetchResult) : String × JsonVal × Option Int :=
  if !urlSet || line_user_id = "" then routing_default
  else
    match fetch with
    | .raise => routing_default
    | .value v =>
      match v with
      | .obj kvs =>
        if jIsFalse (jget kvs "ok") then routing_default
        else
          let modeRaw : JsonVal :=
            match jget kvs "bot_mode" with
            | some m => if jTruthy m then m else .str "auto_ai"
            | none => .str "auto_ai"
          let owner : JsonVal :=
            match jget kvs "owner_agent_id" with
            | some o => if jTruthy o then o else .str ""
            | none => .str ""
          let last : Option Int :=
            match jget kvs "last_mode_at_ms" with
            | some (.num n) => some n
            | some (.bool b) => some (if b then 1 else 0)
            | _ => none
          let mode : String :=
            match modeRaw with
            | .str s => if s ∈ recognized_modes then s else "auto_ai"
            | _ => "auto_ai"
          (mode, owner, last)
      | _ => routing_default

/-- `should_auto_reply_text` of `src/main.py`.  `none` models a
non-numeric `event_timestamp_ms` / `last_mode_at_ms`; the current clock
reading is passed explicitly. -/
def should_auto_reply_text (bot_mode : String)
    (event_timestamp_ms last_mode_at_ms : Option Int) (now_ms : Int) :
    Bool :=
  if bot_mode ≠ "auto_ai" then false
  else
    match event_timestamp_ms with
    | none => false
    | some ev =>
      if now_ms - ev > 10 * 1000 then false
      else
        match last_mode_at_ms with
        | some last => if ev < last then false else true
        | none => true

/-! ## Reply generator -/

/-- Outcome of the completion call: client missing at startup, the call
raising, or a response whose `message.content` is `some` text or `none`
(Python `None`, on which `.strip()` raises inside the guarded block). -/
inductive CompletionOutcome where
  | noClient
  | failure
  | success (content : Option String)

/-- Apology returned when the completion client is not configured. -/
def no_client_reply : String :=
  "目前暫時無法連線到 AI 伺服器，不好意思 >_<"

/-- Apology returned when the completion call raises. -/
def call_failed_reply : String :=
  "目前系統有點忙不過來，我可能晚一點才有辦法幫你詳細回覆 QQ"

/-- Fallback returned when the stripped completion text is empty. -/
def empty_completion_reply : String :=
  "這邊暫時想不到怎麼回，可以再多跟我描述一點嗎？"

/-- `generate_reply_from_openai` of `src/main.py`, with the outcome of
the external call passed explicitly.  A `success none` response raises
`AttributeError` on `.strip()` inside the `try`, which the handler turns
into the call-failure apology. -/
def generate_reply_from_openai (outcome : CompletionOutcome)
    (user_text : String) : String :=
  match outcome with
  | .noClient => no_client_reply
  | .failure => call_failed_reply
  | .success none => call_failed_reply
  | .success (some c) =>
    let r := pyStrip c
    if r ≠ "" then r else empty_completion_reply

/-! ## Activity logger -/

/-- The event id of an activity record:
`f"{message_id}:{sender}" if message_id else ""`. -/
def event_id_of (message_id sender : String) : String :=
  if message_id ≠ "" then message_id ++ ":" ++ sender else ""

/-- The JSON body `log_from_event` posts to the store (the ISO rendering
of the millisecond timestamp is abstracted to the milliseconds). -/
structure LogBody where
  event_id : String
  line_user_id : String
  type : String
  text : String
  sticker_package_id : String
  sticker_id : String
  sender : String
  timestampMs : Int
  display_persona : Option String := none
  sent_by_agent_id : Option String := none

/-- Build the record body exactly as `log_from_event` does; a `none`
event timestamp falls back to the current time. -/
def log_body (now_ms : Int) (user_id message_id : String)
    (event_ts : Option Int) (msg_type text pkg stk sender : String)
    (persona agent : Option String) : LogBody :=
  { event_id := event_id_of message_id sender
    line_user_id := user_id
    type := msg_type
    text := text
    sticker_package_id := pkg
    sticker_id := stk
    sender := sender
    timestampMs := event_ts.getD now_ms
    display_persona := persona
    sent_by_agent_id := agent }

/-! ## Externally visible actions of a handler -/

/-- One externally visible step of a webhook handler, in program order:
posting an activity record, the routing lookup, the completion call, the
booking-confirmation store call, and a reply attempt addressed to a reply
token. -/
inductive Act where
  | logMsg (b : LogBody)
  | routing (userId : String)
  | completionCall (text : String)
  | storeConfirm (rid userId : String)
  | sendReply (token : String) (texts : List String)

/-- `log_to_gas` applied to a `log_from_event` body: posts one record
when the log endpoint is configured, otherwise skips silently. -/
def log_from_event (urlSet : Bool) (now_ms : Int)
    (user_id message_id : String) (event_ts : Option Int)
    (msg_type text pkg stk sender : String) (persona agent : Option String) :
    List Act :=
  if urlSet then
    [.logMsg (log_body now_ms user_id message_id event_ts msg_type text
      pkg stk sender persona agent)]
  else []

/-- `log_postback_event` of `src/main.py`: a record with a synthesized
time-based event id. -/
def log_postback_event (urlSet : Bool) (now_ms : Int)
    (line_user_id data sender : String) : List Act :=
  if urlSet then
    [.logMsg
      { event_id := "postback:" ++ toString now_ms ++ ":" ++ sender
        line_user_id := line_user_id
        type := "postback"
        text := data
        sticker_package_id := ""
        sticker_id := ""
        sender := sender
        timestampMs := now_ms }]
  else []

/-- The reserved self-test reply tokens skipped by the text and sticker
handlers. -/
def invalid_tokens : List String :=
  ["00000000000000000000000000000000", "ffffffffffffffffffffffffffffffff"]

/-! ## Postback confirmation -/

/-- The `or`-chain `obj.get("rid") or obj.get("reservation_id") or ""`
on a parsed JSON object. -/
def rid_or_chain (kvs : List (String × JsonVal)) : JsonVal :=
  match jget kvs "rid" with
  | some v =>
    if jTruthy v then v
    else
      match jget kvs "reservation_id" with
      | some w => if jTruthy w then w else .str ""
      | none => .str ""
  | none =>
    match jget kvs "reservation_id" with
    | some w => if jTruthy w then w else .str ""
    | none => .str ""

/-- `parse_confirm_reservation_id` of `src/main.py`: pipe-delimited tag
first, then query-string style, then a JSON object. -/
def parse_confirm_reservation_id (data : String) : String :=
  if data = "" then ""
  else
    let s := pyStrip data
    if pyStartsWith s "CONFIRM|" then pyStrip (afterBar s)
    else if hasSub s "rid=" || hasSub s "reservation_id=" then
      let vs := qs_values s "rid"
      let vs2 := qs_values s "reservation_id"
      let rid := if !vs.isEmpty then vs.headD ""
        else if !vs2.isEmpty then vs2.headD "" else ""
      pyStrip rid
    else
      match json_loads s with
      | some (.obj kvs) => pyStrip (pyStr (rid_or_chain kvs))
      | _ => ""

/-- Spec-side reading of the same parser: an ordered list of parser
attempts, each returning an optional reservation id; the first attempt
that matches wins, and the result is the empty string when none match. -/
def attempt_pipe (s : String) : Option String :=
  if pyStartsWith s "CONFIRM|" then some (pyStrip (afterBar s)) else none

/-- Query-string attempt: matches when a `rid=` or `reservation_id=` key
marker occurs in the payload. -/
def attempt_qs (s : String) : Option String :=
  if hasSub s "rid=" || hasSub s "reservation_id=" then
    let vs := qs_values s "rid"
    let vs2 := qs_values s "reservation_id"
    some (pyStrip (if !vs.isEmpty then vs.headD ""
      else if !vs2.isEmpty then vs2.headD "" else ""))
  else none

/-- Structured-object attempt: matches when the payload parses as a JSON
object. -/
def attempt_obj (s : String) : Option String :=
  match json_loads s with
  | some (.obj kvs) => some (pyStrip (pyStr (rid_or_chain kvs)))
  | _ => none

/-- Run an ordered list of parser attempts; the first match wins. -/
def first_match (ps : List (String → Option String)) (s : String) :
    Option String :=
  match ps with
  | [] => none
  | p :: rest =>
    match p s with
    | some r => some r
    | none => first_match rest s

/-- The specification's description of the payload parser: try the three
encodings in order on the stripped payload, first success wins, empty
string when none match (and the empty payload yields the empty string). -/
def parse_rid_spec (data : String) : String :=
  if data = "" then ""
  else
    (first_match [attempt_pipe, attempt_qs, attempt_obj] (pyStrip data)).getD ""

/-- Outcome of the booking-confirmation `requests.post`: the request
raising, a non-JSON body, or a JSON value. -/
inductive ConfirmOutcome where
  | raise
  | nonJson
  | value (v : JsonVal)

/-- The dict `confirm_booking_in_gas` returns, given the configuration
flag and the network outcome. -/
def confirm_booking_dict (bookingUrlSet : Bool) (out : ConfirmOutcome) :
    List (String × JsonVal) :=
  if !bookingUrlSet then
    [("ok", .bool false), ("error", .str "GAS_BOOKING_URL_MISSING")]
  else
    match out with
    | .raise => [("ok", .bool false), ("error", .str "GAS_REQUEST_FAILED")]
    | .nonJson =>
      [("ok", .bool false), ("error", .str "GAS_NON_JSON_RESPONSE")]
    | .value (.obj kvs) => kvs
    | .value _ =>
      [("ok", .bool false), ("error", .str "GAS_NON_JSON_RESPONSE")]

/-! ## Webhook handlers as action traces -/

/-- Process-wide configuration: whether the two store endpoints are set
and the current clock reading. -/
structure Config where
  lineLogUrlSet : Bool
  bookingUrlSet : Bool
  nowMs : Int

/-- An inbound text message event. -/
structure TextEvent where
  userId : String
  messageId : String
  text : String
  timestampMs : Option Int
  replyToken : String

/-- An inbound sticker message event. -/
structure StickerEvent where
  userId : String
  messageId : String
  packageId : String
  stickerId : String
  timestampMs : Option Int
  replyToken : String

/-- An inbound postback event. -/
structure PostbackEvent where
  userId : String
  data : String
  replyToken : String

/-- Text sent with a successful postback confirmation. -/
def postback_success_text : String :=
  "收到，我已幫您把這筆預約標記為「已確認到店」。"

/-- Alt text of the confirmation flex bubble. -/
def postback_flex_alt : String := "已確認到店"

/-- Text sent when the store update fails. -/
def postback_failure_text : String :=
  "我有收到您的確認，但系統更新狀態時出了點狀況。麻煩您直接回覆我們『已確認到店』，我會請客服幫您處理。"

/-- `handle_postback` of `src/main.py` as an action trace: log the
postback, parse the reservation id (ignore the event when it is empty),
call the store, then reply — unless the store reports the reservation as
already confirmed, in which case the handler stays silent. -/
def handle_postback (cfg : Config) (out : ConfirmOutcome)
    (ev : PostbackEvent) : List Act :=
  let logActs := log_postback_event cfg.lineLogUrlSet cfg.nowMs
    ev.userId ev.data "user"
  let rid := parse_confirm_reservation_id ev.data
  if rid = "" then logActs
  else
    let res := confirm_booking_dict cfg.bookingUrlSet out
    let callActs : List Act :=
      if cfg.bookingUrlSet then [.storeConfirm rid ev.userId] else []
    logActs ++ callActs ++
      (if jIsTrue (jget res "ok") then
        (if pyBoolGet res "alreadyConfirmed" then []
         else [.sendReply ev.replyToken [postback_success_text, postback_flex_alt]])
       else [.sendReply ev.replyToken [postback_failure_text]])

/-- `handle_text_message` of `src/main.py` as an action trace: log the
user's message, resolve routing, run the staleness gate, generate a
reply when permitted, attempt the reply unless the token is reserved,
and log the bot's message when one was produced. -/
def handle_text_message (cfg : Config) (fetch : FetchResult)
    (ai : CompletionOutcome) (ev : TextEvent) : List Act :=
  let userLog := log_from_event cfg.lineLogUrlSet cfg.nowMs ev.userId
    ev.messageId ev.timestampMs "text" ev.text "" "" "user" none none
  let r := get_line_user_routing cfg.lineLogUrlSet ev.userId fetch
  let shouldReply := should_auto_reply_text r.1 ev.timestampMs r.2.2 cfg.nowMs
  let reply_text : Option String :=
    if shouldReply then some (generate_reply_from_openai ai ev.text) else none
  let genActs : List Act :=
    if shouldReply then [.completionCall ev.text] else []
  let sendActs : List Act :=
    match reply_text with
    | some rt =>
      if rt ≠ "" ∧ ev.replyToken ∉ invalid_tokens then
        [.sendReply ev.replyToken [rt]]
      else []
    | none => []
  let botLog : List Act :=
    match reply_text with
    | some rt =>
      if rt ≠ "" then
        log_from_event cfg.lineLogUrlSet cfg.nowMs ev.userId ev.messageId
          ev.timestampMs "text" rt "" "" "bot" (some "xiaojie") none
      else []
    | none => []
  userLog ++ Act.routing ev.userId :: (genActs ++ sendActs ++ botLog)

/-- Canned reply sent for a sticker when automation is permitted. -/
def sticker_canned_reply : String :=
  "收到你的貼圖～如果方便的話，也可以再打一點文字，讓小潔更好幫你喔！"

/-- `handle_sticker_message` of `src/main.py` as an action trace: resolve
routing, run the staleness gate, attempt the canned reply unless the
token is reserved, then log the user's sticker, then log the bot's
message when one was produced. -/
def handle_sticker_message (cfg : Config) (fetch : FetchResult)
    (ev : StickerEvent) : List Act :=
  let r := get_line_user_routing cfg.lineLogUrlSet ev.userId fetch
  let shouldReply := should_auto_reply_text r.1 ev.timestampMs r.2.2 cfg.nowMs
  let reply_text : Option String :=
    if shouldReply then some sticker_canned_reply else none
  let sendActs : List Act :=
    match reply_text with
    | some rt =>
      if rt ≠ "" ∧ ev.replyToken ∉ invalid_tokens then
        [.sendReply ev.replyToken [rt]]
      else []
    | none => []
  let userLog := log_from_event cfg.lineLogUrlSet cfg.nowMs ev.userId
    ev.messageId ev.timestampMs "sticker" "" ev.packageId ev.stickerId
    "user" none none
  let botLog : List Act :=
    match reply_text with
    | some rt =>
      if rt ≠ "" then
        log_from_event cfg.lineLogUrlSet cfg.nowMs ev.userId ev.messageId
          ev.timestampMs "text" rt "" "" "bot" (some "xiaojie") none
      else []
    | none => []
  Act.routing ev.userId :: (sendActs ++ userLog ++ botLog)

/-! ## Action classifiers -/

/-- Is this action a reply attempt? -/
def isSend : Act → Bool
  | .sendReply _ _ => true
  | _ => false

/-- Is this action a reply attempt addressed to `tok`? -/
def isSendTo (tok : String) : Act → Bool
  | .sendReply t _ => t = tok
  | _ => false

/-- Is this action a booking-confirmation store call? -/
def isStoreConfirm : Act → Bool
  | .storeConfirm _ _ => true
  | _ => false

/-- Is this action an activity-record post with the given sender role? -/
def isLogSender (s : String) : Act → Bool
  | .logMsg b => b.sender = s
  | _ => false

/-- Every action classified by `p` occurs strictly before every action
classified by `q` in the trace `t`. -/
def beforeAll (p q : Act → Bool) (t : List Act) : Prop :=
  ∀ i, i < t.length → ∀ j, j < t.length →
    p (t.getD i (.routing "")) = true → q (t.getD j (.routing "")) = true →
    i < j

/-! ## Reservation state machine -/

/-- States of the per-user reservation dialogue. -/
inductive ResStep where
  | idle
  | waiting_date
  | waiting_time
  | waiting_info
  | confirming
deriving DecidableEq

/-- The reservation fields built incrementally. -/
structure ResFields where
  date : String := ""
  time : String := ""
  name : String := ""
  phone : String := ""
  model : String := ""
deriving DecidableEq

/-- External store calls issued on reservation submission. -/
inductive ResCall where
  | bindCustomer (phone : String)
  | createReservation (date time name phone model : String)
deriving DecidableEq

/-- Modelled from the spec: the reservation-intent trigger phrases of
§4.5 (`"預約"` in the test vector); the implementation of the reservation
state machine is not among the provided sources. -/
def reservation_intents : List String := ["預約"]

/-- Modelled from the spec: the fixed confirmation tokens of §4.5
(`"確認預約"` in the test vector). -/
def confirm_reservation_tokens : List String := ["確認預約"]

/-- Modelled from the spec: §4.5 normalizes a full-width slash variant to
the ASCII slash before splitting contact info. -/
def normalize_slash (s : String) : String :=
  ⟨s.toList.map fun c => if c = '／' then '/' else c⟩

/-- Modelled from the spec: one transition of the reservation state
machine of §4.5 (the implementation is not among the provided sources).
Input: current step and fields plus the user's text; output: next step
and fields plus the external calls issued.  On confirmation the machine
submits bind-customer (keyed by phone) then create-reservation and
resets to idle. -/
def reservation_step : ResStep → ResFields → String →
    ResStep × ResFields × List ResCall
  | .idle, f, t =>
    if t ∈ reservation_intents then (.waiting_date, {}, [])
    else (.idle, f, [])
  | .waiting_date, f, t => (.waiting_time, { f with date := t }, [])
  | .waiting_time, f, t => (.waiting_info, { f with time := t }, [])
  | .waiting_info, f, t =>
    let parts := (splitChar '/' (normalize_slash t).toList).map
      fun l => (⟨l⟩ : String)
    if parts.length ≥ 3 then
      (.confirming,
        { f with
          name := parts.getD 0 ""
          phone := parts.getD 1 ""
          model := parts.getD 2 "" }, [])
    else (.waiting_info, f, [])
  | .confirming, f, t =>
    if t ∈ confirm_reservation_tokens then
      (.idle, {},
        [.bindCustomer f.phone,
         .createReservation f.date f.time f.name f.phone f.model])
    else (.confirming, f, [])

/-- Run the machine over a list of inputs, collecting the calls. -/
def reservation_run : ResStep → ResFields → List String →
    (ResStep × ResFields) × List ResCall
  | st, f, [] => ((st, f), [])
  | st, f, t :: rest =>
    let (st', f', cs) := reservation_step st f t
    let (final, cs') := reservation_run st' f' rest
    (final, cs ++ cs')

/-- The steps visited while running the machine, initial state included. -/
def reservation_trace : ResStep → ResFields → List String → List ResStep
  | st, _, [] => [st]
  | st, f, t :: rest =>
    let (st', f', _) := reservation_step st f t
    st :: reservation_trace st' f' rest

/-! ## Shared helper lemmas -/

/-- An activity-record post is never a reply attempt. -/
theorem log_from_event_no_send (us : Bool) (n : Int) (u m : String)
    (ts : Option Int) (ty tx pk st sd : String) (p a : Option String) :
    (log_from_event us n u m ts ty tx pk st sd p a).all
      (fun x => !isSend x) = true := by
  unfold log_from_event
  split <;> rfl

/-- The postback log is never a reply attempt nor a store call. -/
theorem log_postback_event_actions (us : Bool) (n : Int) (u d sd : String) :
    (log_postback_event us n u d sd).all
      (fun x => !(isSend x || isStoreConfirm x)) = true := by
  unfold log_postback_event
  split <;> rfl

/-- The postback log contains no reply attempt (count form). -/
theorem log_postback_event_countP_send (us : Bool) (n : Int) (u d sd : String) :
    (log_postback_event us n u d sd).countP isSend = 0 := by
  unfold log_postback_event
  split <;> rfl

/-! ## Claim theorems -/

/-- C1: the staleness gate returns true iff the mode is `auto_ai`, the
event timestamp is a number, the event is at most 10 seconds older than
now, and the event is not older than the last mode change when one is
recorded; in particular any other mode yields false regardless of
timestamps, and a fresh event that precedes the last mode change yields
false. -/
theorem staleness_gate_characterization :
    (∀ (mode : String) (evt lst : Option Int) (now : Int),
      should_auto_reply_text mode evt lst now = true ↔
        (mode = "auto_ai" ∧ ∃ e, evt = some e ∧ now - e ≤ 10000 ∧
          (lst = none ∨ ∃ l, lst = some l ∧ l ≤ e))) ∧
    (∀ (mode : String) (evt lst : Option Int) (now : Int),
      mode ≠ "auto_ai" → should_auto_reply_text mode evt lst now = false) ∧
    (∀ (mode : String) (e l now : Int) (lst : Option Int),
      lst = some l → e < l → now - e ≤ 10000 →
      should_auto_reply_text mode (some e) lst now = false) := by
  refine ⟨?_, ?_, ?_⟩
  · intro mode evt lst now
    unfold should_auto_reply_text
    rcases evt with _ | e
    · simp
    · rcases lst with _ | l <;> by_cases h : mode = "auto_ai" <;>
        simp [h] <;> constructor <;> intro h2 <;> first | omega | (constructor <;> omega)
  · intro mode evt lst now h
    unfold should_auto_reply_text
    simp [h]
  · intro mode e l now lst hl he hf
    unfold should_auto_reply_text
    subst hl
    by_cases h : mode = "auto_ai" <;> simp [h] <;> omega

/-- Witness for C1: mode `owner_manual` is rejected, and a fresh event
older than the recorded mode change is rejected. -/
theorem staleness_gate_characterization_witness :
    should_auto_reply_text "owner_manual" (some 0) none 0 = false ∧
    should_auto_reply_text "auto_ai" (some 5) (some 6) 0 = false :=
  ⟨staleness_gate_characterization.2.1 "owner_manual" (some 0) none 0 (by decide),
   staleness_gate_characterization.2.2 "auto_ai" 5 6 0 (some 6) rfl (by decide)
     (by decide)⟩

/-- C2 counterexample: a postback event whose reply handle is the reserved
all-zeros self-test token still receives a reply attempt — the postback
handler performs no reserved-handle check. -/
theorem postback_reserved_token_reply_attempt :
    ("00000000000000000000000000000000" : String) ∈ invalid_tokens ∧
    (handle_postback { lineLogUrlSet := true, bookingUrlSet := true, nowMs := 1000 }
        (.value (.obj [("ok", .bool true)]))
        { userId := "U1", data := "CONFIRM|R-1"
          replyToken := "00000000000000000000000000000000" }).any
      (isSendTo "00000000000000000000000000000000") = true := by
  constructor <;> decide

/-- C2 (amended): for every text and sticker event whose reply handle is
one of the reserved self-test values, the handler never attempts to send
a reply (the postback handler carries no such guard). -/
theorem reserved_token_guard_text_sticker :
    (∀ cfg fetch ai (ev : TextEvent), ev.replyToken ∈ invalid_tokens →
      (handle_text_message cfg fetch ai ev).all (fun a => !isSend a) = true) ∧
    (∀ cfg fetch (ev : StickerEvent), ev.replyToken ∈ invalid_tokens →
      (handle_sticker_message cfg fetch ev).all (fun a => !isSend a) = true) := by
  constructor
  · intro cfg fetch ai ev h
    unfold handle_text_message
    simp only [List.all_append, List.all_cons, Bool.and_eq_true]
    refine ⟨log_from_event_no_send _ _ _ _ _ _ _ _ _ _ _ _, rfl, ⟨?_, ?_⟩, ?_⟩
    · split <;> rfl
    · split
      · split
        · rename_i hcond
          exact absurd h hcond.2
        · rfl
      · rfl
    · split
      · split
        · exact log_from_event_no_send _ _ _ _ _ _ _ _ _ _ _ _
        · rfl
      · rfl
  · intro cfg fetch ev h
    unfold handle_sticker_message
    simp only [List.all_append, List.all_cons, Bool.and_eq_true]
    refine ⟨rfl, ⟨?_, ?_⟩, ?_⟩
    · split
      · split
        · rename_i hcond
          exact absurd h hcond.2
        · rfl
      · rfl
    · exact log_from_event_no_send _ _ _ _ _ _ _ _ _ _ _ _
    · split
      · split
        · exact log_from_event_no_send _ _ _ _ _ _ _ _ _ _ _ _
        · rfl
      · rfl

/-- Witness for the amended C2: a text and a sticker event with the
reserved all-f token produce no reply attempt. -/
theorem reserved_token_guard_text_sticker_witness :
    (handle_text_message { lineLogUrlSet := true, bookingUrlSet := true, nowMs := 0 }
        .raise .noClient
        { userId := "U1", messageId := "m1", text := "hi", timestampMs := some 0
          replyToken := "ffffffffffffffffffffffffffffffff" }).all
      (fun a => !isSend a) = true ∧
    (handle_sticker_message { lineLogUrlSet := true, bookingUrlSet := true, nowMs := 0 }
        .raise
        { userId := "U1", messageId := "m1", packageId := "1", stickerId := "2"
          timestampMs := some 0
          replyToken := "ffffffffffffffffffffffffffffffff" }).all
      (fun a => !isSend a) = true :=
  ⟨reserved_token_guard_text_sticker.1 _ _ _ _ (by decide),
   reserved_token_guard_text_sticker.2 _ _ _ (by decide)⟩

/-- C3: the five-message reservation dialogue visits the states idle →
waiting_date → waiting_time → waiting_info → confirming → idle and issues
exactly one bind-customer call and one create-reservation call with the
expected fields. -/
theorem reservation_flow_end_to_end :
    reservation_trace .idle {}
        ["預約", "2025-12-03", "14:00", "王小明/0912345678/JETSL", "確認預約"] =
      [.idle, .waiting_date, .waiting_time, .waiting_info, .confirming, .idle] ∧
    (reservation_run .idle {}
        ["預約", "2025-12-03", "14:00", "王小明/0912345678/JETSL", "確認預約"]).2 =
      [.bindCustomer "0912345678",
       .createReservation "2025-12-03" "14:00" "王小明" "0912345678" "JETSL"] := by
  constructor <;> decide

/-- C4: the routing resolver returns the fail-open default on an unset
endpoint, an empty user id, a raised read, a non-object response, or a
store-reported failure; and a successful call whose mode value lies
outside the three recognized members yields mode `auto_ai`. -/
theorem routing_fail_open_and_mode_coercion :
    (∀ uid fetch, get_line_user_routing false uid fetch = routing_default) ∧
    (∀ us fetch, get_line_user_routing us "" fetch = routing_default) ∧
    (∀ us uid, get_line_user_routing us uid .raise = routing_default) ∧
    (∀ us uid v, (∀ kvs, v ≠ .obj kvs) →
      get_line_user_routing us uid (.value v) = routing_default) ∧
    (∀ us uid kvs, jIsFalse (jget kvs "ok") = true →
      get_line_user_routing us uid (.value (.obj kvs)) = routing_default) ∧
    (∀ uid kvs m, uid ≠ "" → jIsFalse (jget kvs "ok") = false →
      jget kvs "bot_mode" = some m → (∀ s, m = .str s → s ∉ recognized_modes) →
      (get_line_user_routing true uid (.value (.obj kvs))).1 = "auto_ai") := by
  refine ⟨?_, ?_, ?_, ?_, ?_, ?_⟩
  · intro uid fetch
    unfold get_line_user_routing
    rfl
  · intro us fetch
    unfold get_line_user_routing
    simp
  · intro us uid
    unfold get_line_user_routing
    split <;> rfl
  · intro us uid v hv
    unfold get_line_user_routing
    split
    · rfl
    · cases v with
      | obj kvs => exact absurd rfl (hv kvs)
      | null => rfl
      | bool b => rfl
      | num n => rfl
      | str s => rfl
      | arr xs => rfl
  · intro us uid kvs hok
    unfold get_line_user_routing
    split
    · rfl
    · simp [hok]
  · intro uid kvs m huid hok hm hout
    unfold get_line_user_routing
    simp only [Bool.not_true, Bool.false_or, decide_eq_true_eq, huid, if_false,
      hok, Bool.false_eq_true, hm]
    cases m with
    | str s =>
      by_cases h : jTruthy (.str s) = true
      · simp only [h, if_true]
        by_cases hmem : s ∈ recognized_modes
        · exact absurd hmem (hout s rfl)
        · simp [hmem]
      · simp only [Bool.not_eq_true] at h
        simp [h]
    | null => simp [jTruthy]
    | bool b => cases b <;> simp [jTruthy, recognized_modes]
    | num n => by_cases h : (n != 0) = true <;> simp [jTruthy, h, recognized_modes]
    | arr xs => by_cases h : (!xs.isEmpty) = true <;> simp [jTruthy, h, recognized_modes]
    | obj kvs2 => by_cases h : (!kvs2.isEmpty) = true <;> simp [jTruthy, h, recognized_modes]

/-- Witness for C4: each fail-open case at a concrete input, and a mode
value outside the enum coerced to `auto_ai`. -/
theorem routing_fail_open_and_mode_coercion_witness :
    get_line_user_routing false "U" .raise = routing_default ∧
    get_line_user_routing true "" .raise = routing_default ∧
    get_line_user_routing true "U" .raise = routing_default ∧
    get_line_user_routing true "U" (.value (.str "x")) = routing_default ∧
    get_line_user_routing true "U" (.value (.obj [("ok", .bool false)])) =
      routing_default ∧
    (get_line_user_routing true "U"
        (.value (.obj [("bot_mode", .str "weird")]))).1 = "auto_ai" :=
  ⟨routing_fail_open_and_mode_coercion.1 "U" .raise,
   routing_fail_open_and_mode_coercion.2.1 true .raise,
   routing_fail_open_and_mode_coercion.2.2.1 true "U",
   routing_fail_open_and_mode_coercion.2.2.2.1 true "U" (.str "x")
     (fun kvs h => by cases h),
   routing_fail_open_and_mode_coercion.2.2.2.2.1 true "U"
     [("ok", .bool false)] rfl,
   routing_fail_open_and_mode_coercion.2.2.2.2.2 "U"
     [("bot_mode", .str "weird")] (.str "weird") (by decide) rfl rfl
     (fun s hs => by injection hs with h2; subst h2; decide)⟩

/-- C5: two consecutive postback confirmations for the same reservation
id, where the store returns ok both times and reports already-confirmed
only the second time, produce exactly one reply attempt on the first and
none on the second. -/
theorem postback_confirm_idempotent_silence :
    ∀ (cfg : Config) (ev : PostbackEvent) (kvs₁ kvs₂ : List (String × JsonVal)),
      cfg.bookingUrlSet = true →
      parse_confirm_reservation_id ev.data ≠ "" →
      jIsTrue (jget kvs₁ "ok") = true →
      pyBoolGet kvs₁ "alreadyConfirmed" = false →
      jIsTrue (jget kvs₂ "ok") = true →
      pyBoolGet kvs₂ "alreadyConfirmed" = true →
      (handle_postback cfg (.value (.obj kvs₁)) ev).countP isSend = 1 ∧
      (handle_postback cfg (.value (.obj kvs₂)) ev).countP isSend = 0 := by
  intro cfg ev kvs₁ kvs₂ hb hrid hok1 ha1 hok2 ha2
  constructor
  · unfold handle_postback confirm_booking_dict
    rw [if_neg hrid, hb]
    simp only [Bool.not_true, Bool.false_eq_true, if_false, hok1, ha1, if_true]
    simp [List.countP_append, log_postback_event_countP_send, isSend,
      List.countP_cons]
  · unfold handle_postback confirm_booking_dict
    rw [if_neg hrid, hb]
    simp only [Bool.not_true, Bool.false_eq_true, if_false, hok2, ha2, if_true]
    simp [List.countP_append, log_postback_event_countP_send, isSend,
      List.countP_cons]

/-- Witness for C5: a concrete `CONFIRM|R-1` postback replied to once,
then silent when the store reports it already confirmed. -/
theorem postback_confirm_idempotent_silence_witness :
    (handle_postback { lineLogUrlSet := true, bookingUrlSet := true, nowMs := 0 }
        (.value (.obj [("ok", .bool true)]))
        { userId := "U1", data := "CONFIRM|R-1", replyToken := "tok" }).countP
      isSend = 1 ∧
    (handle_postback { lineLogUrlSet := true, bookingUrlSet := true, nowMs := 0 }
        (.value (.obj [("ok", .bool true), ("alreadyConfirmed", .bool true)]))
        { userId := "U1", data := "CONFIRM|R-1", replyToken := "tok" }).countP
      isSend = 0 :=
  postback_confirm_idempotent_silence _ _ _ _ rfl (by decide) rfl rfl rfl rfl

/-- C6: the payload parser agrees with the ordered-attempts reading of the
spec — pipe tag, then query-string keys, then JSON object, first match
wins, empty string when none match — and a postback whose payload yields
the empty id is ignored: no store call and no reply. -/
theorem parse_rid_spec_agrees_and_empty_ignored :
    (∀ data, parse_confirm_reservation_id data = parse_rid_spec data) ∧
    (∀ cfg out (ev : PostbackEvent), parse_confirm_reservation_id ev.data = "" →
      (handle_postback cfg out ev).all
        (fun a => !(isSend a || isStoreConfirm a)) = true) := by
  constructor
  · intro data
    unfold parse_confirm_reservation_id parse_rid_spec
    by_cases h0 : data = ""
    · simp [h0]
    · simp only [h0, if_false]
      by_cases h1 : pyStartsWith (pyStrip data) "CONFIRM|" = true
      · simp [first_match, attempt_pipe, h1]
      · by_cases h2 : (hasSub (pyStrip data) "rid=" ||
            hasSub (pyStrip data) "reservation_id=") = true
        · simp [first_match, attempt_pipe, attempt_qs, h1, h2]
        · cases hj : json_loads (pyStrip data) with
          | none =>
            simp [first_match, attempt_pipe, attempt_qs, attempt_obj, h1, h2, hj]
          | some v =>
            cases v <;>
              simp [first_match, attempt_pipe, attempt_qs, attempt_obj, h1, h2, hj]
  · intro cfg out ev h
    unfold handle_postback
    simp only [h, if_true]
    exact log_postback_event_actions _ _ _ _ _

/-- Witness for C6: the payload `hello` matches no encoding, and the
postback carrying it triggers neither a store call nor a reply. -/
theorem parse_rid_spec_agrees_and_empty_ignored_witness :
    (handle_postback { lineLogUrlSet := true, bookingUrlSet := true, nowMs := 0 }
        .raise { userId := "U1", data := "hello", replyToken := "tok" }).all
      (fun a => !(isSend a || isStoreConfirm a)) = true :=
  parse_rid_spec_agrees_and_empty_ignored.2 _ _ _ (by decide)

/-- C7 counterexample: for a sticker event in auto mode with a fresh
timestamp, the handler attempts the reply before logging the user's
message, so the claimed log-before-reply order fails. -/
theorem sticker_reply_before_user_log :
    ¬ beforeAll (isLogSender "user") isSend
      (handle_sticker_message
        { lineLogUrlSet := true, bookingUrlSet := true, nowMs := 1000 }
        (.value (.obj [("bot_mode", .str "auto_ai")]))
        { userId := "U1", messageId := "m1", packageId := "1", stickerId := "2"
          timestampMs := some 1000, replyToken := "tokR" }) := by
  unfold beforeAll
  decide

/-- C7 (amended): a text event is processed as log user message → routing
→ gate/generation → reply attempt → log bot message, while a sticker
event is processed as routing → gate → reply attempt → log user sticker →
log bot message: the user's sticker is logged only after the reply step. -/
theorem logging_order_text_sticker :
    (∀ (cfg : Config) fetch ai (ev : TextEvent), cfg.lineLogUrlSet = true →
      ∃ gen send bot,
        handle_text_message cfg fetch ai ev =
          .logMsg (log_body cfg.nowMs ev.userId ev.messageId ev.timestampMs
            "text" ev.text "" "" "user" none none) ::
          .routing ev.userId :: (gen ++ send ++ bot) ∧
        (∀ a ∈ gen, ∃ t, a = .completionCall t) ∧
        (∀ a ∈ send, isSend a = true) ∧
        (∀ a ∈ bot, isLogSender "bot" a = true)) ∧
    (∀ (cfg : Config) fetch (ev : StickerEvent), cfg.lineLogUrlSet = true →
      ∃ send bot,
        handle_sticker_message cfg fetch ev =
          .routing ev.userId ::
            (send ++
              [.logMsg (log_body cfg.nowMs ev.userId ev.messageId ev.timestampMs
                "sticker" "" ev.packageId ev.stickerId "user" none none)] ++ bot) ∧
        (∀ a ∈ send, isSend a = true) ∧
        (∀ a ∈ bot, isLogSender "bot" a = true)) := by
  constructor
  · intro cfg fetch ai ev h
    unfold handle_text_message
    rw [h]
    unfold log_from_event
    simp only [reduceIte]
    refine ⟨_, _, _, rfl, ?_, ?_, ?_⟩
    · intro a ha
      split at ha
      · simp at ha
        exact ⟨ev.text, ha⟩
      · simp at ha
    · intro a ha
      split at ha
      · split at ha
        · simp at ha
          subst ha
          rfl
        · simp at ha
      · simp at ha
    · intro a ha
      split at ha
      · split at ha
        · simp at ha
          subst ha
          rfl
        · simp at ha
      · simp at ha
  · intro cfg fetch ev h
    unfold handle_sticker_message
    rw [h]
    unfold log_from_event
    simp only [reduceIte]
    refine ⟨_, _, rfl, ?_, ?_⟩
    · intro a ha
      split at ha
      · split at ha
        · simp at ha
          subst ha
          rfl
        · simp at ha
      · simp at ha
    · intro a ha
      split at ha
      · split at ha
        · simp at ha
          subst ha
          rfl
        · simp at ha
      · simp at ha

/-- Witness for the amended C7: the processing shapes at a concrete text
and a concrete sticker event with the log endpoint configured. -/
theorem logging_order_text_sticker_witness :
    (∃ gen send bot,
      handle_text_message { lineLogUrlSet := true, bookingUrlSet := true, nowMs := 7 }
          .raise .noClient
          { userId := "U3", messageId := "m3", text := "hey", timestampMs := some 7
            replyToken := "tok3" } =
        .logMsg (log_body 7 "U3" "m3" (some 7) "text" "hey" "" "" "user" none none) ::
        .routing "U3" :: (gen ++ send ++ bot) ∧
      (∀ a ∈ gen, ∃ t, a = .completionCall t) ∧
      (∀ a ∈ send, isSend a = true) ∧
      (∀ a ∈ bot, isLogSender "bot" a = true)) ∧
    (∃ send bot,
      handle_sticker_message { lineLogUrlSet := true, bookingUrlSet := true, nowMs := 7 }
          .raise
          { userId := "U4", messageId := "m4", packageId := "1", stickerId := "2"
            timestampMs := some 7, replyToken := "tok4" } =
        .routing "U4" ::
          (send ++
            [.logMsg (log_body 7 "U4" "m4" (some 7) "sticker" "" "1" "2"
              "user" none none)] ++ bot) ∧
      (∀ a ∈ send, isSend a = true) ∧
      (∀ a ∈ bot, isLogSender "bot" a = true)) :=
  ⟨logging_order_text_sticker.1 _ _ _ _ rfl,
   logging_order_text_sticker.2 _ _ _ rfl⟩

/-- C8: the reply generator always returns one of the fixed strings or
the stripped completion text; an unconfigured client yields the first
apology and a failing call (or a null completion body) the second. -/
theorem completion_reply_total_characterization :
    ∀ (o : CompletionOutcome) (t : String),
      (o = .noClient → generate_reply_from_openai o t = no_client_reply) ∧
      (o = .failure → generate_reply_from_openai o t = call_failed_reply) ∧
      (o = .success none → generate_reply_from_openai o t = call_failed_reply) ∧
      (generate_reply_from_openai o t = no_client_reply ∨
       generate_reply_from_openai o t = call_failed_reply ∨
       generate_reply_from_openai o t = empty_completion_reply ∨
       ∃ c, o = .success (some c) ∧ generate_reply_from_openai o t = pyStrip c) := by
  intro o t
  rcases o with _ | _ | c
  · simp [generate_reply_from_openai]
  · simp [generate_reply_from_openai]
  · rcases c with _ | c
    · simp [generate_reply_from_openai]
    · refine ⟨?_, ?_, ?_, ?_⟩
      · intro h; cases h
      · intro h; cases h
      · intro h; cases h
      · by_cases h : pyStrip c = ""
        · right; right; left
          simp [generate_reply_from_openai, h]
        · right; right; right
          exact ⟨c, rfl, by simp [generate_reply_from_openai, h]⟩

/-- Witness for C8: the three degraded outcomes at a concrete input. -/
theorem completion_reply_total_characterization_witness :
    generate_reply_from_openai .noClient "hi" = no_client_reply ∧
    generate_reply_from_openai .failure "hi" = call_failed_reply ∧
    generate_reply_from_openai (.success none) "hi" = call_failed_reply :=
  ⟨(completion_reply_total_characterization .noClient "hi").1 rfl,
   (completion_reply_total_characterization .failure "hi").2.1 rfl,
   (completion_reply_total_characterization (.success none) "hi").2.2.1 rfl⟩

/-- C9 counterexample: with an empty messageId the event id is the empty
string for every sender, so two different senders share the same id. -/
theorem event_id_empty_message_collision :
    event_id_of "" "user" = event_id_of "" "bot" ∧ ("user" : String) ≠ "bot" := by
  constructor <;> decide

/-- C9 (amended): the activity-record event id equals
`{messageId}:{sender}` for a non-empty messageId and the empty string
otherwise, it is the id stored in every logged record body, and — for a
non-empty messageId — a different sender yields a different id. -/
theorem event_id_characterization :
    (∀ m s, event_id_of m s = if m ≠ "" then m ++ ":" ++ s else "") ∧
    (∀ (now : Int) (uid m : String) (ts : Option Int)
       (ty tx pk st s : String) (p a : Option String),
      (log_body now uid m ts ty tx pk st s p a).event_id = event_id_of m s) ∧
    (∀ m s₁ s₂, m ≠ "" → s₁ ≠ s₂ → event_id_of m s₁ ≠ event_id_of m s₂) := by
  refine ⟨fun m s => rfl, fun _ _ _ _ _ _ _ _ _ _ _ => rfl, ?_⟩
  intro m s₁ s₂ hm hs heq
  unfold event_id_of at heq
  rw [if_pos hm, if_pos hm] at heq
  apply hs
  have h2 := congrArg String.data heq
  simp only [String.data_append] at h2
  have h3 := List.append_cancel_left h2
  exact String.ext h3

/-- Witness for the amended C9: a concrete non-empty messageId with two
senders gives two distinct ids. -/
theorem event_id_characterization_witness :
    event_id_of "m1" "user" ≠ event_id_of "m1" "bot" :=
  event_id_characterization.2.2 "m1" "user" "bot" (by decide) (by decide)

/-- C10: the staleness gate imposes no lower bound on an event's age: in
auto mode a future-dated event passes the gate however far ahead of the
clock it is, provided it is not older than any recorded mode change. -/
theorem staleness_gate_future_event :
    ∀ (now e : Int) (lst : Option Int),
      now < e → (∀ l, lst = some l → l ≤ e) →
      should_auto_reply_text "auto_ai" (some e) lst now = true := by
  intro now e lst hne hl
  unfold should_auto_reply_text
  rcases lst with _ | l
  · simp
    omega
  · have := hl l rfl
    simp
    constructor <;> omega

/-- Witness for C10: an event a trillion milliseconds in the future is
accepted. -/
theorem staleness_gate_future_event_witness :
    should_auto_reply_text "auto_ai" (some 1000000000000) none 0 = true :=
  staleness_gate_future_event 0 1000000000000 none (by decide)
    (fun l hl => by cases hl)
